import Mathlib

/-!
# Verification of the `KeyVaultEncryptedFile` store

A shallow embedding of `src/boot/lib/encrypted-file.js`: a small class that
keeps a file on disk whose contents are always the ciphertext produced by a
remote key-vault (AWS KMS) `encrypt` call, and whose `read` operation feeds
the file bytes back through the `decrypt` call of the vault.

The external collaborators (the vault service and the filesystem) are modelled
as deterministic oracles (`VaultBehavior`, the fault-injection fields of
`World`); the JavaScript control flow of the constructor, `write` and `read`
is translated line by line.  Observable side effects on the filesystem and the
vault network API are recorded in an explicit trace (`Effect`); logging is not
an `Effect` because no property here concerns the log.

A faithful detail of the translation: in `write` in the source, the
`await fs.writeFile(...)` sits inside the (never-awaited) `async` callback
passed to `client.encrypt`.  If that `writeFile` call rejects, the rejection
stays inside the promise of the callback itself: neither `resolve` nor `reject` of the
promise returned by `write` is ever invoked, so the promise held by the caller never
settles (and the runtime reports an unhandled rejection).  The embedding keeps
this behaviour as the outcome `WriteOutcome.neverSettles`.
-/

/-- Raw byte sequences (Node `Buffer` contents). -/
abbrev Bytes := List Nat

/-- Primitive JavaScript values, enough to model the configuration fields the
source reads (`provider`, `region`, `api-key`, `api-secret`, `key-id`). -/
inductive JSVal where
  | undefined
  | null
  | bool (b : Bool)
  | num (n : Int)
  | str (s : String)
deriving DecidableEq, Repr

/-- JavaScript truthiness of the modelled primitive values, as used by the
conditional `options["key-id"] ? options["key-id"] : "alias/kaleido"` of the source. -/
def JSVal.truthy : JSVal → Bool
  | JSVal.undefined => false
  | JSVal.null => false
  | JSVal.bool b => b
  | JSVal.num n => n != 0
  | JSVal.str s => s != ""

/-- The opaque cause carried by a failed remote call or filesystem call. -/
abbrev Cause := String

/-- Which vault endpoint a failed remote call was. -/
inductive VaultOpKind where
  | encrypt
  | decrypt
deriving DecidableEq, Repr

/-- Classification of a local file-access failure. -/
inductive StorageKind where
  | notFound
  | ioError
deriving DecidableEq, Repr

/-- The errors the component can propagate to its caller, tagged by the code
site that produced them (the error taxonomy of the spec). -/
inductive JSError where
  | unsupportedProvider (provider : JSVal)
  | vault (kind : VaultOpKind) (cause : Cause)
  | storage (kind : StorageKind)
deriving DecidableEq, Repr

/-- The configuration bag passed to the constructor.  Field names follow the
accesses in the source: `options.provider`, `options.region`,
`options["api-key"]`, `options["api-secret"]`, `options["key-id"]`. -/
structure Options where
  provider : JSVal
  region : JSVal
  apiKey : JSVal
  apiSecret : JSVal
  keyId : JSVal
deriving DecidableEq, Repr

/-- The client handle built by `new AWS.KMS({...})`: an in-memory record of
the binding parameters; no network activity happens at construction. -/
structure ClientHandle where
  apiVersion : String
  region : JSVal
  accessKeyId : JSVal
  secretAccessKey : JSVal
deriving DecidableEq, Repr

/-- The pinned KMS API version from the source. -/
def AWS_KMS_VERSION : String := "2014-11-01"

/-- `getServiceClient(provider, options)` from the source: the single dispatch
point over providers.  Only the string `"aws"` is loosely equal to `"aws"`
among the modelled primitive values, so the dispatch is an equality test. -/
def getServiceClient (provider : JSVal) (options : Options) :
    Except JSError ClientHandle :=
  if provider = JSVal.str "aws" then
    Except.ok { apiVersion := AWS_KMS_VERSION, region := options.region,
                accessKeyId := options.apiKey,
                secretAccessKey := options.apiSecret }
  else
    Except.error (JSError.unsupportedProvider provider)

/-- The store: the three bindings set once by the constructor. -/
structure KeyVaultEncryptedFile where
  filepath : String
  client : ClientHandle
  masterKeyId : JSVal
deriving DecidableEq, Repr

/-- Observable side effects on the external collaborators (filesystem calls
and vault network calls), in the order the code performs them. -/
inductive Effect where
  | vaultEncrypt (keyId : JSVal) (plaintext : Bytes)
  | vaultDecrypt (ciphertextBlob : Bytes)
  | fsWriteFile (path : String) (data : Bytes)
  | fsReadFile (path : String)
deriving DecidableEq, Repr

/-- Result of running the constructor: the store or the propagated error,
plus the filesystem/network effects performed (none, in both branches). -/
structure MakeResult where
  result : Except JSError KeyVaultEncryptedFile
  trace : List Effect

/-- The constructor: builds the client via `getServiceClient` (propagating its
failure) and resolves `masterKeyId` with the truthiness
conditional `options["key-id"] ? options["key-id"] : "alias/kaleido"`. -/
def KeyVaultEncryptedFile.make (filepath : String) (options : Options) :
    MakeResult :=
  match getServiceClient options.provider options with
  | Except.error e => { result := Except.error e, trace := [] }
  | Except.ok client =>
      { result := Except.ok
          { filepath := filepath, client := client,
            masterKeyId := if options.keyId.truthy then options.keyId
                           else JSVal.str "alias/kaleido" },
        trace := [] }

/-- The remote vault service reached through the bound client: a deterministic
model of the responses of its `encrypt` and `decrypt` endpoints. -/
structure VaultBehavior where
  encrypt : JSVal → Bytes → Except Cause Bytes
  decrypt : Bytes → Except Cause Bytes

/-- The filesystem collaborator: the current contents of every path, plus
fault injection for `writeFile` and for reading an existing but unreadable
file.  The fault oracles are fixed; only `fs` evolves. -/
structure World where
  fs : String → Option Bytes
  writeFails : String → Bytes → Bool
  readIoError : String → Bool

/-- How the promise returned by `write` can end up for its caller. -/
inductive WriteOutcome where
  | resolved
  | rejected (e : JSError)
  | neverSettles
deriving DecidableEq, Repr

/-- Result of one `write` invocation: the caller-visible outcome, the store
(`this`) afterwards, the filesystem afterwards, and the effect trace. -/
structure WriteResult where
  outcome : WriteOutcome
  store : KeyVaultEncryptedFile
  world : World
  trace : List Effect

/-- `write(plainTextData)` from the source.  The encrypt callback either
rejects with the vault error, or attempts `fs.writeFile(this.filepath,
data.CiphertextBlob)`.  A rejecting `writeFile` is awaited inside the
non-awaited `async` callback, so the outer promise never settles. -/
def KeyVaultEncryptedFile.write (vb : VaultBehavior)
    (self : KeyVaultEncryptedFile) (w : World) (plainTextData : Bytes) :
    WriteResult :=
  match vb.encrypt self.masterKeyId plainTextData with
  | Except.error err =>
      { outcome := WriteOutcome.rejected (JSError.vault VaultOpKind.encrypt err),
        store := self, world := w,
        trace := [Effect.vaultEncrypt self.masterKeyId plainTextData] }
  | Except.ok ciphertextBlob =>
      if w.writeFails self.filepath ciphertextBlob then
        { outcome := WriteOutcome.neverSettles, store := self, world := w,
          trace := [Effect.vaultEncrypt self.masterKeyId plainTextData,
                    Effect.fsWriteFile self.filepath ciphertextBlob] }
      else
        { outcome := WriteOutcome.resolved, store := self,
          world := { w with
            fs := fun q => if q = self.filepath then some ciphertextBlob
                           else w.fs q },
          trace := [Effect.vaultEncrypt self.masterKeyId plainTextData,
                    Effect.fsWriteFile self.filepath ciphertextBlob] }

/-- How the promise returned by `read` can end up for its caller. -/
inductive ReadOutcome where
  | resolved (plaintext : Bytes)
  | rejected (e : JSError)
deriving DecidableEq, Repr

/-- Result of one `read` invocation. -/
structure ReadResult where
  outcome : ReadOutcome
  store : KeyVaultEncryptedFile
  world : World
  trace : List Effect

/-- `read()` from the source: `await fs.readFile(this.filepath)` first (its
rejection propagates out of the `async` method before the vault is touched),
then the decrypt call with `{CiphertextBlob: encrypted}`. -/
def KeyVaultEncryptedFile.read (vb : VaultBehavior)
    (self : KeyVaultEncryptedFile) (w : World) : ReadResult :=
  match w.fs self.filepath with
  | none =>
      { outcome := ReadOutcome.rejected (JSError.storage StorageKind.notFound),
        store := self, world := w,
        trace := [Effect.fsReadFile self.filepath] }
  | some encrypted =>
      if w.readIoError self.filepath then
        { outcome := ReadOutcome.rejected (JSError.storage StorageKind.ioError),
          store := self, world := w,
          trace := [Effect.fsReadFile self.filepath] }
      else
        match vb.decrypt encrypted with
        | Except.error err =>
            { outcome := ReadOutcome.rejected
                (JSError.vault VaultOpKind.decrypt err),
              store := self, world := w,
              trace := [Effect.fsReadFile self.filepath,
                        Effect.vaultDecrypt encrypted] }
        | Except.ok plaintext =>
            { outcome := ReadOutcome.resolved plaintext, store := self,
              world := w,
              trace := [Effect.fsReadFile self.filepath,
                        Effect.vaultDecrypt encrypted] }

/-- An operation of the public API of the store, for reasoning about sequences. -/
inductive Op where
  | write (plaintext : Bytes)
  | read
deriving DecidableEq, Repr

/-- Result of running a sequence of operations. -/
structure RunResult where
  store : KeyVaultEncryptedFile
  world : World
  trace : List Effect

/-- Run a sequence of `write`/`read` operations, threading the store and the
filesystem and concatenating the effect traces. -/
def runOps (vb : VaultBehavior) :
    KeyVaultEncryptedFile → World → List Op → RunResult
  | self, w, [] => { store := self, world := w, trace := [] }
  | self, w, Op.write p :: rest =>
      let r := self.write vb w p
      let rr := runOps vb r.store r.world rest
      { store := rr.store, world := rr.world, trace := r.trace ++ rr.trace }
  | self, w, Op.read :: rest =>
      let r := self.read vb w
      let rr := runOps vb r.store r.world rest
      { store := rr.store, world := rr.world, trace := r.trace ++ rr.trace }

/-- Specification-level description of the file contents at the path bound in the store
after a sequence of operations: the ciphertext blob of the most recent
successful write, or the starting contents if no write has succeeded. -/
def expectedContents (vb : VaultBehavior) (self : KeyVaultEncryptedFile)
    (writeFails : String → Bytes → Bool) :
    Option Bytes → List Op → Option Bytes
  | cur, [] => cur
  | cur, Op.read :: rest => expectedContents vb self writeFails cur rest
  | cur, Op.write p :: rest =>
      match vb.encrypt self.masterKeyId p with
      | Except.error _ => expectedContents vb self writeFails cur rest
      | Except.ok blob =>
          if writeFails self.filepath blob then
            expectedContents vb self writeFails cur rest
          else
            expectedContents vb self writeFails (some blob) rest

/-! ## Basic lemmas about single operations -/

/-- `read` never mutates the filesystem. -/
theorem read_world_eq (vb : VaultBehavior) (self : KeyVaultEncryptedFile)
    (w : World) : (KeyVaultEncryptedFile.read vb self w).world = w := by
  unfold KeyVaultEncryptedFile.read
  split
  · rfl
  · split
    · rfl
    · split <;> rfl

/-- `read` never mutates the store bindings. -/
theorem read_store_eq (vb : VaultBehavior) (self : KeyVaultEncryptedFile)
    (w : World) : (KeyVaultEncryptedFile.read vb self w).store = self := by
  unfold KeyVaultEncryptedFile.read
  split
  · rfl
  · split
    · rfl
    · split <;> rfl

/-- `write` never mutates the store bindings. -/
theorem write_store_eq (vb : VaultBehavior) (self : KeyVaultEncryptedFile)
    (w : World) (p : Bytes) :
    (KeyVaultEncryptedFile.write vb self w p).store = self := by
  unfold KeyVaultEncryptedFile.write
  split
  · rfl
  · split <;> rfl

/-- `read` performs no `writeFile` call. -/
theorem read_trace_no_fsWrite (vb : VaultBehavior)
    (self : KeyVaultEncryptedFile) (w : World) (path : String) (data : Bytes) :
    Effect.fsWriteFile path data ∉ (KeyVaultEncryptedFile.read vb self w).trace := by
  unfold KeyVaultEncryptedFile.read
  split
  · simp
  · split
    · simp
    · split <;> simp

/-- What a successful construction resolves `masterKeyId` to. -/
theorem make_masterKeyId (filepath : String) (options : Options)
    (self : KeyVaultEncryptedFile)
    (hmk : (KeyVaultEncryptedFile.make filepath options).result = Except.ok self) :
    self.masterKeyId =
      if options.keyId.truthy then options.keyId
      else JSVal.str "alias/kaleido" := by
  unfold KeyVaultEncryptedFile.make at hmk
  cases hg : getServiceClient options.provider options with
  | error e => rw [hg] at hmk; simp at hmk
  | ok client =>
      rw [hg] at hmk
      simp at hmk
      rw [← hmk]

/-! ## Concrete fixtures for closed instantiations -/

/-- A concrete vault behaviour: encrypt tags the plaintext with a leading
byte, decrypt strips it, so the pair is faithful on every plaintext. -/
def vbTag : VaultBehavior :=
  { encrypt := fun _ p => Except.ok (7 :: p),
    decrypt := fun c => Except.ok c.tail }

/-- A concrete vault behaviour whose encrypt endpoint always fails. -/
def vbEncFail : VaultBehavior :=
  { encrypt := fun _ _ => Except.error "network down",
    decrypt := fun _ => Except.error "network down" }

/-- A concrete configuration for the recognized provider. -/
def optsAws : Options :=
  { provider := JSVal.str "aws", region := JSVal.str "us-east-1",
    apiKey := JSVal.str "AK", apiSecret := JSVal.str "SK",
    keyId := JSVal.undefined }

/-- The same configuration with an unrecognized provider. -/
def optsUnknown : Options := { optsAws with provider := JSVal.str "unknown-x" }

/-- The same configuration with an explicit key id. -/
def optsCustom : Options := { optsAws with keyId := JSVal.str "custom-key" }

/-- The same configuration with the falsy number 0 as key id. -/
def optsNumZero : Options := { optsAws with keyId := JSVal.num 0 }

/-- The client handle the factory builds from `optsAws`. -/
def clientAws : ClientHandle :=
  { apiVersion := AWS_KMS_VERSION, region := JSVal.str "us-east-1",
    accessKeyId := JSVal.str "AK", secretAccessKey := JSVal.str "SK" }

/-- A concrete store bound to path "f" with the default master key alias. -/
def storeF : KeyVaultEncryptedFile :=
  { filepath := "f", client := clientAws,
    masterKeyId := JSVal.str "alias/kaleido" }

/-- A concrete store bound to path "f" with an explicit key id. -/
def storeCustom : KeyVaultEncryptedFile :=
  { filepath := "f", client := clientAws,
    masterKeyId := JSVal.str "custom-key" }

/-- An empty, fault-free filesystem. -/
def wEmpty : World :=
  { fs := fun _ => none, writeFails := fun _ _ => false,
    readIoError := fun _ => false }

/-- A filesystem holding a sentinel file at "f", fault-free. -/
def wSentinel : World :=
  { fs := fun q => if q = "f" then some [1, 2, 3] else none,
    writeFails := fun _ _ => false, readIoError := fun _ => false }

/-- A filesystem where every `writeFile` call fails (permission denied). -/
def wWriteFail : World :=
  { fs := fun q => if q = "f" then some [1, 2, 3] else none,
    writeFails := fun _ _ => true, readIoError := fun _ => false }

/-! ## Claims -/

/-- C1: for every plaintext byte sequence P, calling write(P) and then read()
on the same store returns bytes equal to P, provided the bound vault client
is a faithful pair at P (encrypt succeeds with a blob that decrypt maps back
to P) and the filesystem faithfully stores what was last written. -/
theorem write_then_read_roundtrip (vb : VaultBehavior)
    (self : KeyVaultEncryptedFile) (w : World) (P c : Bytes)
    (henc : vb.encrypt self.masterKeyId P = Except.ok c)
    (hdec : vb.decrypt c = Except.ok P)
    (hwf : w.writeFails self.filepath c = false)
    (hio : w.readIoError self.filepath = false) :
    (KeyVaultEncryptedFile.write vb self w P).outcome = WriteOutcome.resolved ∧
    (KeyVaultEncryptedFile.read vb self
        (KeyVaultEncryptedFile.write vb self w P).world).outcome =
      ReadOutcome.resolved P := by
  constructor
  · simp [KeyVaultEncryptedFile.write, henc, hwf]
  · simp [KeyVaultEncryptedFile.write, KeyVaultEncryptedFile.read,
          henc, hwf, hio, hdec]

/-- C1 witness: the round-trip at a concrete store, world and plaintext. -/
theorem write_then_read_roundtrip_witness :
    (KeyVaultEncryptedFile.write vbTag storeF wEmpty [1, 2]).outcome =
      WriteOutcome.resolved ∧
    (KeyVaultEncryptedFile.read vbTag storeF
        (KeyVaultEncryptedFile.write vbTag storeF wEmpty [1, 2]).world).outcome =
      ReadOutcome.resolved [1, 2] :=
  write_then_read_roundtrip vbTag storeF wEmpty [1, 2] [7, 1, 2] rfl rfl rfl rfl

/-- C6: if the vault encrypt call fails, write rejects with the encrypt-kind
vault error carrying the underlying cause, the filesystem is untouched (the
target file is byte-for-byte unchanged), and the trace shows exactly one
encrypt attempt and no filesystem write (hence no retry). -/
theorem write_encrypt_failure (vb : VaultBehavior)
    (self : KeyVaultEncryptedFile) (w : World) (p : Bytes) (c : Cause)
    (henc : vb.encrypt self.masterKeyId p = Except.error c) :
    (KeyVaultEncryptedFile.write vb self w p).outcome =
      WriteOutcome.rejected (JSError.vault VaultOpKind.encrypt c) ∧
    (KeyVaultEncryptedFile.write vb self w p).world = w ∧
    (KeyVaultEncryptedFile.write vb self w p).trace =
      [Effect.vaultEncrypt self.masterKeyId p] := by
  simp [KeyVaultEncryptedFile.write, henc]

/-- C6 witness: a concrete failing encrypt against a sentinel file. -/
theorem write_encrypt_failure_witness :
    (KeyVaultEncryptedFile.write vbEncFail storeF wSentinel [1, 2]).outcome =
      WriteOutcome.rejected (JSError.vault VaultOpKind.encrypt "network down") ∧
    (KeyVaultEncryptedFile.write vbEncFail storeF wSentinel [1, 2]).world =
      wSentinel ∧
    (KeyVaultEncryptedFile.write vbEncFail storeF wSentinel [1, 2]).trace =
      [Effect.vaultEncrypt (JSVal.str "alias/kaleido") [1, 2]] :=
  write_encrypt_failure vbEncFail storeF wSentinel [1, 2] "network down" rfl

/-- C8: on an existing readable file, read passes exactly the file bytes to
the decrypt call; it returns the plaintext exactly as the vault returned it,
and on decrypt failure rejects with the decrypt-kind vault error carrying the
underlying cause. -/
theorem read_existing_file (vb : VaultBehavior) (self : KeyVaultEncryptedFile)
    (w : World) (b : Bytes)
    (hb : w.fs self.filepath = some b)
    (hio : w.readIoError self.filepath = false) :
    (KeyVaultEncryptedFile.read vb self w).trace =
      [Effect.fsReadFile self.filepath, Effect.vaultDecrypt b] ∧
    (∀ pt, vb.decrypt b = Except.ok pt →
      (KeyVaultEncryptedFile.read vb self w).outcome =
        ReadOutcome.resolved pt) ∧
    (∀ c, vb.decrypt b = Except.error c →
      (KeyVaultEncryptedFile.read vb self w).outcome =
        ReadOutcome.rejected (JSError.vault VaultOpKind.decrypt c)) := by
  refine ⟨?_, ?_, ?_⟩
  · simp only [KeyVaultEncryptedFile.read, hb, hio]
    cases vb.decrypt b <;> simp
  · intro pt hd
    simp [KeyVaultEncryptedFile.read, hb, hio, hd]
  · intro c hd
    simp [KeyVaultEncryptedFile.read, hb, hio, hd]

/-- C8 witness: reading the sentinel file through the concrete vault. -/
theorem read_existing_file_witness :
    (KeyVaultEncryptedFile.read vbTag storeF wSentinel).trace =
      [Effect.fsReadFile "f", Effect.vaultDecrypt [1, 2, 3]] ∧
    (∀ pt, vbTag.decrypt [1, 2, 3] = Except.ok pt →
      (KeyVaultEncryptedFile.read vbTag storeF wSentinel).outcome =
        ReadOutcome.resolved pt) ∧
    (∀ c, vbTag.decrypt [1, 2, 3] = Except.error c →
      (KeyVaultEncryptedFile.read vbTag storeF wSentinel).outcome =
        ReadOutcome.rejected (JSError.vault VaultOpKind.decrypt c)) :=
  read_existing_file vbTag storeF wSentinel [1, 2, 3] rfl rfl

/-- C3: for every provider identifier other than the recognized "aws",
construction fails with the unsupported-provider error carrying the offending
identifier and performs no filesystem or network side effect; for "aws" it
returns a store whose client is bound to the configured region and
credentials (and construction still performs no such side effect). -/
theorem provider_validation (filepath : String) (options : Options) :
    (options.provider ≠ JSVal.str "aws" →
      (KeyVaultEncryptedFile.make filepath options).result =
        Except.error (JSError.unsupportedProvider options.provider) ∧
      (KeyVaultEncryptedFile.make filepath options).trace = []) ∧
    (options.provider = JSVal.str "aws" →
      ∃ self, (KeyVaultEncryptedFile.make filepath options).result =
          Except.ok self ∧
        (KeyVaultEncryptedFile.make filepath options).trace = [] ∧
        self.client.region = options.region ∧
        self.client.accessKeyId = options.apiKey ∧
        self.client.secretAccessKey = options.apiSecret) := by
  constructor
  · intro h
    simp [KeyVaultEncryptedFile.make, getServiceClient, h]
  · intro h
    refine ⟨{ filepath := filepath,
              client := { apiVersion := AWS_KMS_VERSION,
                          region := options.region,
                          accessKeyId := options.apiKey,
                          secretAccessKey := options.apiSecret },
              masterKeyId := if options.keyId.truthy then options.keyId
                             else JSVal.str "alias/kaleido" },
            ?_, ?_, rfl, rfl, rfl⟩ <;>
      simp [KeyVaultEncryptedFile.make, getServiceClient, h]

/-- C3 witness: the two branches at concrete configurations. -/
theorem provider_validation_witness :
    ((KeyVaultEncryptedFile.make "f" optsUnknown).result =
        Except.error (JSError.unsupportedProvider (JSVal.str "unknown-x")) ∧
      (KeyVaultEncryptedFile.make "f" optsUnknown).trace = []) ∧
    (∃ self, (KeyVaultEncryptedFile.make "f" optsAws).result =
        Except.ok self ∧
      (KeyVaultEncryptedFile.make "f" optsAws).trace = [] ∧
      self.client.region = optsAws.region ∧
      self.client.accessKeyId = optsAws.apiKey ∧
      self.client.secretAccessKey = optsAws.apiSecret) :=
  ⟨(provider_validation "f" optsUnknown).1 (by decide),
   (provider_validation "f" optsAws).2 rfl⟩

/-- C4: a successful construction resolves masterKeyId to the configured
key-id when that field is a present non-empty string, and to the fixed
default alias when the field is absent or the empty string; the resolved
value (together with the given plaintext) is what every encrypt call issued
by write carries. -/
theorem masterKeyId_resolution (filepath : String) (options : Options)
    (self : KeyVaultEncryptedFile)
    (hmk : (KeyVaultEncryptedFile.make filepath options).result =
      Except.ok self) :
    (∀ s, options.keyId = JSVal.str s → s ≠ "" →
      self.masterKeyId = JSVal.str s) ∧
    ((options.keyId = JSVal.undefined ∨ options.keyId = JSVal.str "") →
      self.masterKeyId = JSVal.str "alias/kaleido") ∧
    (∀ vb w p keyId pt,
      Effect.vaultEncrypt keyId pt ∈
        (KeyVaultEncryptedFile.write vb self w p).trace →
      keyId = self.masterKeyId ∧ pt = p) := by
  have hself := make_masterKeyId filepath options self hmk
  refine ⟨?_, ?_, ?_⟩
  · intro s hs hne
    rw [hself, hs]
    simp [JSVal.truthy, hne]
  · intro h
    rcases h with h | h <;> rw [hself, h] <;> simp [JSVal.truthy]
  · intro vb w p keyId pt hmem
    unfold KeyVaultEncryptedFile.write at hmem
    split at hmem
    · simp at hmem
      exact hmem
    · split at hmem <;> simp at hmem <;> exact hmem

/-- C4 witness: the explicit key id "custom-key" is resolved verbatim. -/
theorem masterKeyId_resolution_witness :
    storeCustom.masterKeyId = JSVal.str "custom-key" :=
  (masterKeyId_resolution "f" optsCustom storeCustom rfl).1
    "custom-key" rfl (by decide)

/-- C5: when the file at the bound path is missing or unreadable, read
rejects with a storage error (notFound or ioError) and the decrypt call of
the vault is never invoked. -/
theorem read_missing_or_unreadable (vb : VaultBehavior)
    (self : KeyVaultEncryptedFile) (w : World)
    (h : w.fs self.filepath = none ∨ w.readIoError self.filepath = true) :
    (∃ k, (KeyVaultEncryptedFile.read vb self w).outcome =
      ReadOutcome.rejected (JSError.storage k)) ∧
    ∀ c, Effect.vaultDecrypt c ∉
      (KeyVaultEncryptedFile.read vb self w).trace := by
  rcases h with h | h
  · refine ⟨⟨StorageKind.notFound, ?_⟩, ?_⟩ <;>
      simp [KeyVaultEncryptedFile.read, h]
  · cases hf : w.fs self.filepath with
    | none =>
        refine ⟨⟨StorageKind.notFound, ?_⟩, ?_⟩ <;>
          simp [KeyVaultEncryptedFile.read, hf]
    | some b =>
        refine ⟨⟨StorageKind.ioError, ?_⟩, ?_⟩ <;>
          simp [KeyVaultEncryptedFile.read, hf, h]

/-- C5 witness: reading from the empty filesystem. -/
theorem read_missing_or_unreadable_witness :
    (∃ k, (KeyVaultEncryptedFile.read vbTag storeF wEmpty).outcome =
      ReadOutcome.rejected (JSError.storage k)) ∧
    ∀ c, Effect.vaultDecrypt c ∉
      (KeyVaultEncryptedFile.read vbTag storeF wEmpty).trace :=
  read_missing_or_unreadable vbTag storeF wEmpty (Or.inl rfl)

/-- C7: at the failing input (the encrypt call succeeds, the subsequent
filesystem write of the ciphertext fails), the promise returned by write
never settles: it is not rejected with any error, so the caller never
receives a StorageError, contradicting the claim. -/
theorem write_fs_failure_never_settles :
    (KeyVaultEncryptedFile.write vbTag storeF wWriteFail [1, 2]).outcome =
      WriteOutcome.neverSettles ∧
    ∀ e, (KeyVaultEncryptedFile.write vbTag storeF wWriteFail [1, 2]).outcome ≠
      WriteOutcome.rejected e := by
  refine ⟨rfl, fun e h => ?_⟩
  rw [show (KeyVaultEncryptedFile.write vbTag storeF wWriteFail [1, 2]).outcome =
        WriteOutcome.neverSettles from rfl] at h
  exact WriteOutcome.noConfusion h

/-- C10: a successful construction resolves masterKeyId to the fixed string
"alias/kaleido" for every falsy key-id value (undefined, null, false, 0, or
the empty string), and to the configured value verbatim for every truthy
key-id value. -/
theorem masterKeyId_falsy_default (filepath : String) (options : Options)
    (self : KeyVaultEncryptedFile)
    (hmk : (KeyVaultEncryptedFile.make filepath options).result =
      Except.ok self) :
    ((options.keyId = JSVal.undefined ∨ options.keyId = JSVal.null ∨
      options.keyId = JSVal.bool false ∨ options.keyId = JSVal.num 0 ∨
      options.keyId = JSVal.str "") →
      self.masterKeyId = JSVal.str "alias/kaleido") ∧
    (options.keyId.truthy = true → self.masterKeyId = options.keyId) := by
  have hself := make_masterKeyId filepath options self hmk
  constructor
  · intro h
    rcases h with h | h | h | h | h <;> rw [hself, h] <;> simp [JSVal.truthy]
  · intro h
    rw [hself, if_pos h]

/-- C10 witness: the falsy number 0 resolves to the default alias. -/
theorem masterKeyId_falsy_default_witness :
    storeF.masterKeyId = JSVal.str "alias/kaleido" :=
  (masterKeyId_falsy_default "f" optsNumZero storeF rfl).1
    (Or.inr (Or.inr (Or.inr (Or.inl rfl))))

/-- Reduction of `write` when the encrypt call fails. -/
theorem write_eq_of_encrypt_error (vb : VaultBehavior)
    (self : KeyVaultEncryptedFile) (w : World) (p : Bytes) (c : Cause)
    (henc : vb.encrypt self.masterKeyId p = Except.error c) :
    KeyVaultEncryptedFile.write vb self w p =
      { outcome := WriteOutcome.rejected (JSError.vault VaultOpKind.encrypt c),
        store := self, world := w,
        trace := [Effect.vaultEncrypt self.masterKeyId p] } := by
  unfold KeyVaultEncryptedFile.write
  rw [henc]

/-- Reduction of `write` when encrypt succeeds but the file write fails. -/
theorem write_eq_of_writeFails (vb : VaultBehavior)
    (self : KeyVaultEncryptedFile) (w : World) (p blob : Bytes)
    (henc : vb.encrypt self.masterKeyId p = Except.ok blob)
    (hwf : w.writeFails self.filepath blob = true) :
    KeyVaultEncryptedFile.write vb self w p =
      { outcome := WriteOutcome.neverSettles, store := self, world := w,
        trace := [Effect.vaultEncrypt self.masterKeyId p,
                  Effect.fsWriteFile self.filepath blob] } := by
  unfold KeyVaultEncryptedFile.write
  rw [henc]
  simp [hwf]

/-- Reduction of `write` when encrypt and the file write both succeed. -/
theorem write_eq_of_ok (vb : VaultBehavior)
    (self : KeyVaultEncryptedFile) (w : World) (p blob : Bytes)
    (henc : vb.encrypt self.masterKeyId p = Except.ok blob)
    (hwf : w.writeFails self.filepath blob = false) :
    KeyVaultEncryptedFile.write vb self w p =
      { outcome := WriteOutcome.resolved, store := self,
        world := { w with
          fs := fun q => if q = self.filepath then some blob else w.fs q },
        trace := [Effect.vaultEncrypt self.masterKeyId p,
                  Effect.fsWriteFile self.filepath blob] } := by
  unfold KeyVaultEncryptedFile.write
  rw [henc]
  simp [hwf]

/-- C2: after any sequence of write and read operations, the file at the
bound path holds exactly the ciphertext blob of the most recent successful
write (the starting contents if no write has succeeded), and every byte
buffer this component ever hands to writeFile is a ciphertext blob that the
vault returned for the plaintext of one of the writes in the sequence (so no
plaintext is ever written to disk). -/
theorem file_contents_invariant (vb : VaultBehavior)
    (self : KeyVaultEncryptedFile) (w : World) (ops : List Op) :
    (runOps vb self w ops).world.fs self.filepath =
      expectedContents vb self w.writeFails (w.fs self.filepath) ops ∧
    ∀ path data,
      Effect.fsWriteFile path data ∈ (runOps vb self w ops).trace →
      path = self.filepath ∧
      ∃ p, vb.encrypt self.masterKeyId p = Except.ok data ∧
        Op.write p ∈ ops := by
  induction ops generalizing w with
  | nil => simp [runOps, expectedContents]
  | cons op rest ih =>
    cases op with
    | read =>
      have hs := read_store_eq vb self w
      have hw := read_world_eq vb self w
      constructor
      · simp only [runOps]
        rw [hs, hw]
        simpa [expectedContents] using (ih w).1
      · intro path data hmem
        simp only [runOps, List.mem_append] at hmem
        rw [hs, hw] at hmem
        rcases hmem with hmem | hmem
        · exact absurd hmem (read_trace_no_fsWrite vb self w path data)
        · obtain ⟨hp, q, hqe, hqm⟩ := (ih w).2 path data hmem
          exact ⟨hp, q, hqe, List.mem_cons_of_mem _ hqm⟩
    | write p =>
      cases henc : vb.encrypt self.masterKeyId p with
      | error c =>
        have hred := write_eq_of_encrypt_error vb self w p c henc
        constructor
        · simp only [runOps, hred]
          simpa [expectedContents, henc] using (ih w).1
        · intro path data hmem
          simp only [runOps, hred, List.mem_append] at hmem
          rcases hmem with hmem | hmem
          · simp at hmem
          · obtain ⟨hp, q, hqe, hqm⟩ := (ih w).2 path data hmem
            exact ⟨hp, q, hqe, List.mem_cons_of_mem _ hqm⟩
      | ok blob =>
        cases hwf : w.writeFails self.filepath blob with
        | true =>
          have hred := write_eq_of_writeFails vb self w p blob henc hwf
          constructor
          · simp only [runOps, hred]
            simpa [expectedContents, henc, hwf] using (ih w).1
          · intro path data hmem
            simp only [runOps, hred, List.mem_append] at hmem
            rcases hmem with hmem | hmem
            · simp at hmem
              rcases hmem with ⟨hp, hd⟩
              subst hd
              exact ⟨hp, p, henc, List.mem_cons_self _ _⟩
            · obtain ⟨hp, q, hqe, hqm⟩ := (ih w).2 path data hmem
              exact ⟨hp, q, hqe, List.mem_cons_of_mem _ hqm⟩
        | false =>
          have hred := write_eq_of_ok vb self w p blob henc hwf
          have hfs2 : ({ w with
              fs := fun q => if q = self.filepath then some blob
                             else w.fs q } : World).fs self.filepath =
              some blob := by simp
          constructor
          · simp only [runOps, hred]
            have hrest := (ih { w with
              fs := fun q => if q = self.filepath then some blob
                             else w.fs q }).1
            rw [hfs2] at hrest
            simpa [expectedContents, henc, hwf] using hrest
          · intro path data hmem
            simp only [runOps, hred, List.mem_append] at hmem
            rcases hmem with hmem | hmem
            · simp at hmem
              rcases hmem with ⟨hp, hd⟩
              subst hd
              exact ⟨hp, p, henc, List.mem_cons_self _ _⟩
            · obtain ⟨hp, q, hqe, hqm⟩ := (ih { w with
                fs := fun q => if q = self.filepath then some blob
                               else w.fs q }).2 path data hmem
              exact ⟨hp, q, hqe, List.mem_cons_of_mem _ hqm⟩

/-- C2 witness: one successful write against the empty filesystem. -/
theorem file_contents_invariant_witness :
    (runOps vbTag storeF wEmpty [Op.write [1, 2]]).world.fs "f" =
      expectedContents vbTag storeF wEmpty.writeFails (wEmpty.fs "f")
        [Op.write [1, 2]] ∧
    ("f" = storeF.filepath ∧
      ∃ p, vbTag.encrypt storeF.masterKeyId p = Except.ok [7, 1, 2] ∧
        Op.write p ∈ [Op.write [1, 2]]) :=
  ⟨(file_contents_invariant vbTag storeF wEmpty [Op.write [1, 2]]).1,
   (file_contents_invariant vbTag storeF wEmpty [Op.write [1, 2]]).2
     "f" [7, 1, 2] (by decide)⟩

/-- C9: every invocation of read and write leaves the three store bindings
(filepath, client handle, resolved masterKeyId) unchanged: after any
sequence of operations they equal the values set at construction. -/
theorem store_bindings_frame (vb : VaultBehavior)
    (self : KeyVaultEncryptedFile) (w : World) (ops : List Op) :
    (runOps vb self w ops).store.filepath = self.filepath ∧
    (runOps vb self w ops).store.client = self.client ∧
    (runOps vb self w ops).store.masterKeyId = self.masterKeyId := by
  have h : ∀ w2, (runOps vb self w2 ops).store = self := by
    induction ops with
    | nil => intro w2; rfl
    | cons op rest ih =>
      intro w2
      cases op with
      | write p =>
        simp only [runOps]
        rw [write_store_eq]
        exact ih _
      | read =>
        simp only [runOps]
        rw [read_store_eq]
        exact ih _
  rw [h w]
  exact ⟨rfl, rfl, rfl⟩
